import Mathlib

/-!
Verification development for the waveform-generator repository
(`waveform_generator.py` and `xy_waveform_generator.py`).

The Python sources are shallowly embedded: Python `float` values are modelled
as exact rationals (`ℚ`), Python `int` as `ℤ`/`ℕ`, Python `round` (banker's
rounding, ties to even) as `pyRound`, float division (which raises
`ZeroDivisionError` on a zero denominator) as the fallible `pydiv`, and a
list comprehension whose body may raise as `optMap` over `Option`.
Calls into `math.sin`, `math.cos`, ... are modelled by an abstract structure
`PyMath` of total functions on `ℚ` (one fixed but arbitrary interpretation of
the floating-point math library); the `random` module is modelled by an
abstract seeded generator `PyRandom` with explicit state passing.
-/

unseal Rat.mul Rat.add Rat.sub Rat.inv

/-- Python's built-in `round`: round to nearest integer, ties to even. -/
def pyRound (q : ℚ) : ℤ :=
  if q - ⌊q⌋ < 1/2 then ⌊q⌋
  else if 1/2 < q - ⌊q⌋ then ⌊q⌋ + 1
  else if ⌊q⌋ % 2 = 0 then ⌊q⌋ else ⌊q⌋ + 1

/-- Python float division: raises `ZeroDivisionError` (modelled as `none`)
when the denominator is zero. -/
def pydiv (a b : ℚ) : Option ℚ :=
  if b = 0 then none else some (a / b)

/-- Python `x % 1` on floats: the fractional part `x - floor x`. -/
def pymod1 (q : ℚ) : ℚ :=
  q - ⌊q⌋

/-- A Python list comprehension whose body may raise: the first failing
element aborts the whole comprehension. -/
def optMap {α β : Type} (f : α → Option β) : List α → Option (List β)
  | [] => some []
  | a :: l =>
    match f a, optMap f l with
    | some b, some bs => some (b :: bs)
    | _, _ => none

/-- One fixed but arbitrary interpretation of the `math` module's constants and
functions as total functions on exact rationals. -/
structure PyMath where
  pi : ℚ
  sin : ℚ → ℚ
  cos : ℚ → ℚ
  asin : ℚ → ℚ
  sqrt : ℚ → ℚ
  exp : ℚ → ℚ
  log : ℚ → ℚ

/-- The `random` module, modelled abstractly: `seed` builds a generator state
from an integer seed (discarding any previous state, as `random.seed` does)
and `next` returns one draw in `[0,1)` together with the successor state. -/
structure PyRandom (S : Type) where
  seed : ℤ → S
  next : S → ℚ × S

/-- Draw `n` successive values from a `PyRandom` state. -/
def randList {S : Type} (r : PyRandom S) : ℕ → S → List ℚ × S
  | 0, s => ([], s)
  | n + 1, s =>
    let p := r.next s
    let rest := randList r n p.2
    (p.1 :: rest.1, rest.2)

/-- `class WaveformGenerator`: configuration fields set in `__init__`. -/
structure WaveformGenerator where
  bits : ℕ
  array_size : ℕ
deriving DecidableEq

/-- `self.max_value = (2**bits) - 1`. -/
def WaveformGenerator.max_value (g : WaveformGenerator) : ℤ :=
  2 ^ g.bits - 1

/-- `self.center = self.max_value // 2` (Python floor division). -/
def WaveformGenerator.center (g : WaveformGenerator) : ℤ :=
  Int.fdiv g.max_value 2

/-- `WaveformGenerator._get_data_type`: picks the C storage type, raising
`ValueError` (the `UnsupportedBitDepth` failure) for more than 32 bits. -/
def WaveformGenerator.get_data_type (g : WaveformGenerator) : Except String String :=
  if g.bits ≤ 8 then .ok "uint8_t"
  else if g.bits ≤ 16 then .ok "uint16_t"
  else if g.bits ≤ 32 then .ok "uint32_t"
  else .error "Nombre de bits non supporte"

/-- `WaveformGenerator.__init__`: stores the fields, then computes
`self.data_type = self._get_data_type()`, which may raise and so abort
construction. -/
def WaveformGenerator.init (bits array_size : ℕ) : Except String WaveformGenerator :=
  let g : WaveformGenerator := ⟨bits, array_size⟩
  g.get_data_type.map fun _ => g

/-- `WaveformGenerator.normalize`: `round((value + 1) * max_value / 2)`
clamped into `[0, max_value]`. -/
def WaveformGenerator.normalize (g : WaveformGenerator) (value : ℚ) : ℤ :=
  max 0 (min g.max_value (pyRound ((value + 1) * (g.max_value : ℚ) / 2)))

/-- `WaveformGenerator.generate_sine`. -/
def WaveformGenerator.generate_sine (g : WaveformGenerator) (m : PyMath)
    (amplitude frequency phase : ℚ) : List ℤ :=
  (List.range g.array_size).map fun (i : ℕ) =>
    g.normalize (amplitude * m.sin (2 * m.pi * frequency * i / g.array_size + phase))

/-- `WaveformGenerator.generate_triangle`. -/
def WaveformGenerator.generate_triangle (g : WaveformGenerator) (m : PyMath)
    (amplitude frequency phase : ℚ) : List ℤ :=
  (List.range g.array_size).map fun (i : ℕ) =>
    g.normalize (amplitude * (2 / m.pi) *
      m.asin (m.sin (2 * m.pi * frequency * i / g.array_size + phase)))

/-- `WaveformGenerator.generate_square`. -/
def WaveformGenerator.generate_square (g : WaveformGenerator) (m : PyMath)
    (amplitude frequency phase : ℚ) : List ℤ :=
  (List.range g.array_size).map fun (i : ℕ) =>
    g.normalize (amplitude *
      (if 0 ≤ m.sin (2 * m.pi * frequency * i / g.array_size + phase) then 1 else -1))

/-- `WaveformGenerator.generate_sawtooth`. -/
def WaveformGenerator.generate_sawtooth (g : WaveformGenerator) (m : PyMath)
    (amplitude frequency phase : ℚ) : List ℤ :=
  (List.range g.array_size).map fun (i : ℕ) =>
    g.normalize (amplitude *
      (2 * pymod1 (frequency * i / g.array_size + phase / (2 * m.pi)) - 1))

/-- `WaveformGenerator.generate_linear_ramp`:
`[round(i * max_value / (array_size - 1)) for i in range(array_size)]`.
The division raises `ZeroDivisionError` when `array_size - 1 == 0`. -/
def WaveformGenerator.generate_linear_ramp (g : WaveformGenerator) : Option (List ℤ) :=
  optMap (fun (i : ℕ) => (pydiv ((i : ℚ) * (g.max_value : ℚ)) ((g.array_size : ℚ) - 1)).map pyRound)
    (List.range g.array_size)

/-- The per-sample candidate value of `generate_heart`, i.e. the body of its
`try:` block: `amplitude * cos(t) * (sin(t) * sqrt(abs(cos(t)))) / (sin(t) + 1.4)`.
The division is fallible. -/
def heart_value (m : PyMath) (amplitude frequency phase : ℚ) (array_size : ℕ)
    (i : ℕ) : Option ℚ :=
  let t := 2 * m.pi * frequency * i / array_size + phase
  pydiv (amplitude * m.cos t * (m.sin t * m.sqrt |m.cos t|)) (m.sin t + 7/5)

/-- `WaveformGenerator.generate_heart`: the per-sample evaluation is abstracted
as `evalSample` (`none` models an exception from the `try:` body or a
non-finite float, both of which the source replaces by `value = 0`). -/
def WaveformGenerator.generate_heart (g : WaveformGenerator)
    (evalSample : ℕ → Option ℚ) : List ℤ :=
  (List.range g.array_size).map fun (i : ℕ) =>
    g.normalize (match evalSample i with
      | some v => v
      | none => 0)

/-- `WaveformGenerator.generate_flower`. -/
def WaveformGenerator.generate_flower (g : WaveformGenerator) (m : PyMath)
    (amplitude frequency phase : ℚ) (petals : ℤ) : List ℤ :=
  (List.range g.array_size).map fun (i : ℕ) =>
    g.normalize (amplitude *
      m.sin (petals * (2 * m.pi * frequency * i / g.array_size + phase)) *
      m.cos (2 * m.pi * frequency * i / g.array_size + phase))

/-- `WaveformGenerator.generate_spiral`. -/
def WaveformGenerator.generate_spiral (g : WaveformGenerator) (m : PyMath)
    (amplitude frequency phase : ℚ) : List ℤ :=
  (List.range g.array_size).map fun (i : ℕ) =>
    g.normalize (amplitude * (2 * m.pi * frequency * i / g.array_size + phase) / (2 * m.pi) *
      m.sin ((2 * m.pi * frequency * i / g.array_size + phase) * 3))

/-- The per-sample candidate value of `generate_butterfly`, i.e. the body of
its `try:` block:
`amplitude * sin(t) * (exp(cos(t)) - 2*cos(4*t) - sin(t/12)**5) / 3`. -/
def butterfly_value (m : PyMath) (amplitude frequency phase : ℚ) (array_size : ℕ)
    (i : ℕ) : Option ℚ :=
  let t := 2 * m.pi * frequency * i / array_size + phase
  pydiv (amplitude * m.sin t * (m.exp (m.cos t) - 2 * m.cos (4 * t) - (m.sin (t / 12)) ^ 5)) 3

/-- `WaveformGenerator.generate_butterfly`: like `generate_heart` the fallible
per-sample evaluation is abstracted; a successful (finite) value is clamped
to `[-2, 2]` before normalization, a failed one is replaced by `0` (which the
source's clamp leaves unchanged when it is reached via the `isfinite` check). -/
def WaveformGenerator.generate_butterfly (g : WaveformGenerator)
    (evalSample : ℕ → Option ℚ) : List ℤ :=
  (List.range g.array_size).map fun (i : ℕ) =>
    g.normalize (match evalSample i with
      | some v => max (-2) (min 2 v)
      | none => 0)

/-- `WaveformGenerator.generate_lissajous`. -/
def WaveformGenerator.generate_lissajous (g : WaveformGenerator) (m : PyMath)
    (amplitude frequency phase : ℚ) (ratio_a ratio_b : ℤ) : List ℤ :=
  (List.range g.array_size).map fun (i : ℕ) =>
    g.normalize (amplitude *
      m.sin (ratio_a * (2 * m.pi * frequency * i / g.array_size + phase)) *
      m.cos (ratio_b * (2 * m.pi * frequency * i / g.array_size + phase)))

/-- `WaveformGenerator.generate_chaos`. -/
def WaveformGenerator.generate_chaos (g : WaveformGenerator) (m : PyMath)
    (amplitude frequency phase : ℚ) : List ℤ :=
  (List.range g.array_size).map fun (i : ℕ) =>
    g.normalize (amplitude *
      m.sin (2 * m.pi * frequency * i / g.array_size + phase) *
      m.sin (m.sqrt 2 * (2 * m.pi * frequency * i / g.array_size + phase)) *
      m.sin (m.sqrt 3 * (2 * m.pi * frequency * i / g.array_size + phase)))

/-- `WaveformGenerator.generate_pulse`. -/
def WaveformGenerator.generate_pulse (g : WaveformGenerator) (m : PyMath)
    (amplitude frequency phase duty_cycle : ℚ) : List ℤ :=
  (List.range g.array_size).map fun (i : ℕ) =>
    g.normalize
      (if pymod1 (frequency * i / g.array_size + phase / (2 * m.pi)) < duty_cycle
       then amplitude else -amplitude)

/-- `WaveformGenerator.generate_noise`: `random.seed(seed)` discards the
incoming global generator state, then `array_size` draws of `random.random()`
are scaled into `[-amplitude, amplitude)` and normalized. The resulting
global state is returned alongside the buffer. -/
def WaveformGenerator.generate_noise {S : Type} (g : WaveformGenerator) (r : PyRandom S)
    (amplitude : ℚ) (seed : ℤ) (_incoming : S) : List ℤ × S :=
  let s := r.seed seed
  let draws := randList r g.array_size s
  (draws.1.map fun u => g.normalize (amplitude * (2 * u - 1)), draws.2)

/-- `WaveformGenerator.generate_exponential`. -/
def WaveformGenerator.generate_exponential (g : WaveformGenerator) (m : PyMath)
    (amplitude rate : ℚ) : List ℤ :=
  (List.range g.array_size).map fun (i : ℕ) =>
    g.normalize (amplitude * m.exp (-rate * i / g.array_size))

/-- `WaveformGenerator.generate_logarithmic`. -/
def WaveformGenerator.generate_logarithmic (g : WaveformGenerator) (m : PyMath)
    (amplitude base : ℚ) : List ℤ :=
  (List.range g.array_size).map fun (i : ℕ) =>
    g.normalize (amplitude * m.log (1 + base * i / g.array_size) / m.log (1 + base))

/-- `WaveformGenerator.generate_gaussian`. -/
def WaveformGenerator.generate_gaussian (g : WaveformGenerator) (m : PyMath)
    (amplitude center sigma : ℚ) : List ℤ :=
  (List.range g.array_size).map fun (i : ℕ) =>
    g.normalize (amplitude * m.exp (-(1/2) * ((i / (g.array_size : ℚ) - center) / sigma) ^ 2))

/-- The `available_waveforms` dictionary of `main`: identifier, description and
the produced buffer (the source stores thunks and calls them during the
generation phase; a `none` buffer models a generator call that raises).
Default parameters are filled in exactly as at the source's call sites. -/
def available_waveforms {S : Type} (g : WaveformGenerator) (m : PyMath) (r : PyRandom S)
    (s : S) (amplitude frequency : ℚ) : List (String × String × Option (List ℤ)) :=
  [("sine", "Classic sine wave", some (g.generate_sine m amplitude frequency 0)),
   ("triangle", "Triangle wave", some (g.generate_triangle m amplitude frequency 0)),
   ("square", "Square wave", some (g.generate_square m amplitude frequency 0)),
   ("sawtooth", "Sawtooth wave", some (g.generate_sawtooth m amplitude frequency 0)),
   ("ramp", "Linear ramp", g.generate_linear_ramp),
   ("heart", "Heart-shaped curve",
     some (g.generate_heart (heart_value m amplitude frequency 0 g.array_size))),
   ("flower", "Flower pattern", some (g.generate_flower m amplitude frequency 0 5)),
   ("spiral", "Archimedean spiral", some (g.generate_spiral m amplitude frequency 0)),
   ("butterfly", "Butterfly curve",
     some (g.generate_butterfly (butterfly_value m amplitude frequency 0 g.array_size))),
   ("lissajous", "Lissajous curve (3:2)",
     some (g.generate_lissajous m amplitude frequency 0 3 2)),
   ("chaos", "Chaotic signal", some (g.generate_chaos m amplitude frequency 0)),
   ("pulse", "Pulse train", some (g.generate_pulse m amplitude frequency 0 (1/10))),
   ("noise", "Pseudo-random noise", some (g.generate_noise r amplitude 12345 s).1),
   ("exponential", "Exponential decay", some (g.generate_exponential m amplitude 2)),
   ("logarithmic", "Logarithmic curve", some (g.generate_logarithmic m amplitude 10)),
   ("gaussian", "Gaussian bell curve", some (g.generate_gaussian m amplitude (1/2) (1/5)))]

/-- Python `str.split(",")`, character by character. -/
def splitCommaStep (c : Char) (acc : List (List Char)) : List (List Char) :=
  match acc with
  | [] => [[c]]
  | h :: t => if c = ',' then [] :: h :: t else (c :: h) :: t

/-- `s.split(",")` for Python strings. -/
def pySplitComma (s : String) : List String :=
  (s.data.foldr splitCommaStep [[]]).map String.mk

/-- Python `str.strip()`: remove leading and trailing whitespace. -/
def pyStrip (s : String) : String :=
  String.mk (((s.data.dropWhile Char.isWhitespace).reverse.dropWhile Char.isWhitespace).reverse)

/-- `wave_list = [w.strip() for w in args.waves.split(",")]`. -/
def parse_waves (waves_arg : String) : List String :=
  (pySplitComma waves_arg).map pyStrip

/-- `invalid = set(wave_list) - set(available_waveforms.keys())`: the set of
requested identifiers absent from the registry (first occurrences, in order). -/
def invalid_waves (waves_arg : String) (keys : List String) : List String :=
  ((parse_waves waves_arg).filter fun w => !(keys.contains w)).dedup

/-- The dictionary comprehension selecting the valid requested identifiers. -/
def selected_wave_names (waves_arg : String) (keys : List String) : List String :=
  ((parse_waves waves_arg).filter fun w => keys.contains w).dedup

/-- Failure modes of `main` relevant to selection and generation. -/
inductive MainError where
  | unknownWaveforms : List String → MainError
  | emptySelection : MainError
  | uncaughtException : MainError
deriving DecidableEq

/-- The selection and generation phases of `main` in `waveform_generator.py`:
with `--waves all` every registry entry is selected; otherwise the requested
list is parsed and, if any identifier is unknown, the whole run fails with the
full invalid set before any buffer is computed or written. Only on a
successful, non-empty selection are the generator thunks evaluated (a raising
thunk aborts the run). The `.ok` payload is the collection handed to the
header generator and written to disk. -/
def main_run (waves_arg : String) (registry : List (String × String × Option (List ℤ))) :
    Except MainError (List (String × List ℤ)) :=
  let keys := registry.map Prod.fst
  let selection : Except MainError (List String) :=
    if waves_arg = "all" then .ok keys
    else
      let invalid := invalid_waves waves_arg keys
      if invalid ≠ [] then .error (.unknownWaveforms invalid)
      else .ok (selected_wave_names waves_arg keys)
  match selection with
  | .error e => .error e
  | .ok names =>
    if names = [] then .error .emptySelection
    else
      match optMap (fun nm => (registry.find? fun e => e.1 == nm).bind fun e => e.2.2) names with
      | some bufs => .ok (names.zip bufs)
      | none => .error .uncaughtException

/-- `class XYWaveformGenerator`: configuration fields set in `__init__`. -/
structure XYWaveformGenerator where
  bits : ℕ
  array_size : ℕ
deriving DecidableEq

/-- `self.max_value = (2 ** bits) - 1`. -/
def XYWaveformGenerator.max_value (g : XYWaveformGenerator) : ℤ :=
  2 ^ g.bits - 1

/-- `self.center = self.max_value // 2` (Python floor division). -/
def XYWaveformGenerator.center (g : XYWaveformGenerator) : ℤ :=
  Int.fdiv g.max_value 2

/-- `XYWaveformGenerator._get_data_type`. -/
def XYWaveformGenerator.get_data_type (g : XYWaveformGenerator) : Except String String :=
  if g.bits ≤ 8 then .ok "uint8_t"
  else if g.bits ≤ 16 then .ok "uint16_t"
  else if g.bits ≤ 32 then .ok "uint32_t"
  else .error "Nombre de bits non supporte"

/-- `XYWaveformGenerator.__init__`. -/
def XYWaveformGenerator.init (bits array_size : ℕ) : Except String XYWaveformGenerator :=
  let g : XYWaveformGenerator := ⟨bits, array_size⟩
  g.get_data_type.map fun _ => g

/-- `XYWaveformGenerator.normalize_xy`: both coordinates are independently
rounded and clamped into `[0, max_value]`. -/
def XYWaveformGenerator.normalize_xy (g : XYWaveformGenerator) (x y : ℚ) : ℤ × ℤ :=
  (max 0 (min g.max_value (pyRound ((x + 1) * (g.max_value : ℚ) / 2))),
   max 0 (min g.max_value (pyRound ((y + 1) * (g.max_value : ℚ) / 2))))

/-- `XYWaveformGenerator.generate_circle`. -/
def XYWaveformGenerator.generate_circle (g : XYWaveformGenerator) (m : PyMath)
    (radius phase : ℚ) : List ℤ × List ℤ :=
  let pts := (List.range g.array_size).map fun (i : ℕ) =>
    let t := 2 * m.pi * i / g.array_size + phase
    g.normalize_xy (radius * m.cos t) (radius * m.sin t)
  (pts.map Prod.fst, pts.map Prod.snd)

/-- `XYWaveformGenerator.generate_ellipse`. -/
def XYWaveformGenerator.generate_ellipse (g : XYWaveformGenerator) (m : PyMath)
    (a b phase : ℚ) : List ℤ × List ℤ :=
  let pts := (List.range g.array_size).map fun (i : ℕ) =>
    let t := 2 * m.pi * i / g.array_size + phase
    g.normalize_xy (a * m.cos t) (b * m.sin t)
  (pts.map Prod.fst, pts.map Prod.snd)

/-- `XYWaveformGenerator.generate_lissajous` (note: here the phase enters only
the X coordinate's argument, not `t`). -/
def XYWaveformGenerator.generate_lissajous (g : XYWaveformGenerator) (m : PyMath)
    (freq_x freq_y : ℤ) (phase amplitude : ℚ) : List ℤ × List ℤ :=
  let pts := (List.range g.array_size).map fun (i : ℕ) =>
    let t := 2 * m.pi * i / g.array_size
    g.normalize_xy (amplitude * m.sin (freq_x * t + phase)) (amplitude * m.sin (freq_y * t))
  (pts.map Prod.fst, pts.map Prod.snd)

/-- `XYWaveformGenerator.generate_lissajous_cos`. -/
def XYWaveformGenerator.generate_lissajous_cos (g : XYWaveformGenerator) (m : PyMath)
    (freq_x freq_y : ℤ) (phase amplitude : ℚ) : List ℤ × List ℤ :=
  let pts := (List.range g.array_size).map fun (i : ℕ) =>
    let t := 2 * m.pi * i / g.array_size
    g.normalize_xy (amplitude * m.cos (freq_x * t + phase)) (amplitude * m.sin (freq_y * t))
  (pts.map Prod.fst, pts.map Prod.snd)

/-- `XYWaveformGenerator.generate_heart` (parametric heart curve). -/
def XYWaveformGenerator.generate_heart (g : XYWaveformGenerator) (m : PyMath)
    (scale phase : ℚ) : List ℤ × List ℤ :=
  let pts := (List.range g.array_size).map fun (i : ℕ) =>
    let t := 2 * m.pi * i / g.array_size + phase
    g.normalize_xy (scale * 16 * (m.sin t) ^ 3)
      (scale * (13 * m.cos t - 5 * m.cos (2 * t) - 2 * m.cos (3 * t) - m.cos (4 * t)))
  (pts.map Prod.fst, pts.map Prod.snd)

/-- `XYWaveformGenerator.generate_rose`. -/
def XYWaveformGenerator.generate_rose (g : XYWaveformGenerator) (m : PyMath)
    (petals : ℤ) (scale phase : ℚ) : List ℤ × List ℤ :=
  let pts := (List.range g.array_size).map fun (i : ℕ) =>
    let t := 2 * m.pi * i / g.array_size + phase
    let r := scale * m.cos (petals * t)
    g.normalize_xy (r * m.cos t) (r * m.sin t)
  (pts.map Prod.fst, pts.map Prod.snd)

/-- `XYWaveformGenerator.generate_butterfly` (Temple Fay curve, per-axis clamp
to `[-1, 1]` before normalization; the XY variant has no `try:` guard). -/
def XYWaveformGenerator.generate_butterfly (g : XYWaveformGenerator) (m : PyMath)
    (scale phase : ℚ) : List ℤ × List ℤ :=
  let pts := (List.range g.array_size).map fun (i : ℕ) =>
    let t := 2 * m.pi * i / g.array_size + phase
    let x := scale * m.sin t * (m.exp (m.cos t) - 2 * m.cos (4 * t) - (m.sin (t / 12)) ^ 5)
    let y := scale * m.cos t * (m.exp (m.cos t) - 2 * m.cos (4 * t) - (m.sin (t / 12)) ^ 5)
    g.normalize_xy (max (-1) (min 1 x)) (max (-1) (min 1 y))
  (pts.map Prod.fst, pts.map Prod.snd)

/-- `XYWaveformGenerator.generate_infinity` (Bernoulli lemniscate; the
denominator `1 + sin(t)**2` is at least 1, so plain division is faithful). -/
def XYWaveformGenerator.generate_infinity (g : XYWaveformGenerator) (m : PyMath)
    (scale phase : ℚ) : List ℤ × List ℤ :=
  let pts := (List.range g.array_size).map fun (i : ℕ) =>
    let t := 2 * m.pi * i / g.array_size + phase
    let denominator := 1 + (m.sin t) ^ 2
    g.normalize_xy (scale * m.cos t / denominator) (scale * m.sin t * m.cos t / denominator)
  (pts.map Prod.fst, pts.map Prod.snd)

/-- `XYWaveformGenerator.generate_spiral_archimedes`. -/
def XYWaveformGenerator.generate_spiral_archimedes (g : XYWaveformGenerator) (m : PyMath)
    (turns scale phase : ℚ) : List ℤ × List ℤ :=
  let pts := (List.range g.array_size).map fun (i : ℕ) =>
    let t := turns * 2 * m.pi * i / g.array_size + phase
    let r := scale * t / (turns * 2 * m.pi)
    g.normalize_xy (r * m.cos t) (r * m.sin t)
  (pts.map Prod.fst, pts.map Prod.snd)

/-- `XYWaveformGenerator.generate_spiral_logarithmic` (radius capped at 1). -/
def XYWaveformGenerator.generate_spiral_logarithmic (g : XYWaveformGenerator) (m : PyMath)
    (scale growth phase : ℚ) : List ℤ × List ℤ :=
  let pts := (List.range g.array_size).map fun (i : ℕ) =>
    let t := 4 * m.pi * i / g.array_size + phase
    let r := min (scale * m.exp (growth * t)) 1
    g.normalize_xy (r * m.cos t) (r * m.sin t)
  (pts.map Prod.fst, pts.map Prod.snd)

/-- `XYWaveformGenerator.generate_hypotrochoid`. -/
def XYWaveformGenerator.generate_hypotrochoid (g : XYWaveformGenerator) (m : PyMath)
    (R r d scale phase : ℚ) : List ℤ × List ℤ :=
  let pts := (List.range g.array_size).map fun (i : ℕ) =>
    let t := 2 * m.pi * i / g.array_size + phase
    g.normalize_xy (scale * ((R - r) * m.cos t + d * m.cos ((R - r) * t / r)))
      (scale * ((R - r) * m.sin t - d * m.sin ((R - r) * t / r)))
  (pts.map Prod.fst, pts.map Prod.snd)

/-- `XYWaveformGenerator.generate_rhodonea`. -/
def XYWaveformGenerator.generate_rhodonea (g : XYWaveformGenerator) (m : PyMath)
    (k scale phase : ℚ) : List ℤ × List ℤ :=
  let pts := (List.range g.array_size).map fun (i : ℕ) =>
    let t := 2 * m.pi * i / g.array_size + phase
    let r := scale * m.cos (k * t)
    g.normalize_xy (r * m.cos t) (r * m.sin t)
  (pts.map Prod.fst, pts.map Prod.snd)

/-- `XYWaveformGenerator.generate_cycloid` (with the source's re-centering and
rescaling before normalization). -/
def XYWaveformGenerator.generate_cycloid (g : XYWaveformGenerator) (m : PyMath)
    (radius scale phase : ℚ) : List ℤ × List ℤ :=
  let pts := (List.range g.array_size).map fun (i : ℕ) =>
    let t := 4 * m.pi * i / g.array_size + phase
    let x := scale * radius * (t - m.sin t)
    let y := scale * radius * (1 - m.cos t)
    g.normalize_xy (x / (4 * m.pi * radius) * 2 - 1) (y / (2 * radius) - 1)
  (pts.map Prod.fst, pts.map Prod.snd)

/-- `XYWaveformGenerator.generate_astroid`. -/
def XYWaveformGenerator.generate_astroid (g : XYWaveformGenerator) (m : PyMath)
    (scale phase : ℚ) : List ℤ × List ℤ :=
  let pts := (List.range g.array_size).map fun (i : ℕ) =>
    let t := 2 * m.pi * i / g.array_size + phase
    g.normalize_xy (scale * (m.cos t) ^ 3) (scale * (m.sin t) ^ 3)
  (pts.map Prod.fst, pts.map Prod.snd)

/-- The `available_patterns` dictionary of `main` in `xy_waveform_generator.py`
with the source's default parameters filled in at each call site. -/
def available_patterns (g : XYWaveformGenerator) (m : PyMath) :
    List (String × String × (List ℤ × List ℤ)) :=
  [("circle", "Perfect circle", g.generate_circle m (4/5) 0),
   ("ellipse", "Ellipse", g.generate_ellipse m (4/5) (3/5) 0),
   ("lissajous_3_2", "Lissajous 3:2", g.generate_lissajous m 3 2 0 (4/5)),
   ("lissajous_5_4", "Lissajous 5:4", g.generate_lissajous m 5 4 0 (4/5)),
   ("lissajous_7_5", "Lissajous 7:5", g.generate_lissajous m 7 5 0 (4/5)),
   ("lissajous_cos", "Lissajous cosine", g.generate_lissajous_cos m 3 2 0 (4/5)),
   ("heart", "Mathematical heart", g.generate_heart m (1/10) 0),
   ("rose_3", "3-petal rose", g.generate_rose m 3 (4/5) 0),
   ("rose_5", "5-petal rose", g.generate_rose m 5 (4/5) 0),
   ("rose_8", "8-petal rose", g.generate_rose m 8 (4/5) 0),
   ("butterfly", "Butterfly curve", g.generate_butterfly m (3/10) 0),
   ("infinity", "Infinity symbol", g.generate_infinity m (4/5) 0),
   ("spiral_archimedes", "Archimedes spiral", g.generate_spiral_archimedes m 3 (4/5) 0),
   ("spiral_log", "Logarithmic spiral", g.generate_spiral_logarithmic m (1/10) (1/5) 0),
   ("hypotrochoid", "Hypotrochoid (spirograph)", g.generate_hypotrochoid m 5 3 5 (3/20) 0),
   ("rhodonea", "Rhodonea curve", g.generate_rhodonea m (5/2) (4/5) 0),
   ("cycloid", "Cycloid curve", g.generate_cycloid m (1/5) 1 0),
   ("astroid", "Astroid (4-pointed star)", g.generate_astroid m (4/5) 0)]

/-- The selection and generation phases of `main` in `xy_waveform_generator.py`
(same selection policy as the single-channel `main`; XY generation itself
cannot raise). -/
def xy_main_run (patterns_arg : String)
    (registry : List (String × String × (List ℤ × List ℤ))) :
    Except MainError (List (String × (List ℤ × List ℤ))) :=
  let keys := registry.map Prod.fst
  let selection : Except MainError (List String) :=
    if patterns_arg = "all" then .ok keys
    else
      let invalid := invalid_waves patterns_arg keys
      if invalid ≠ [] then .error (.unknownWaveforms invalid)
      else .ok (selected_wave_names patterns_arg keys)
  match selection with
  | .error e => .error e
  | .ok names =>
    if names = [] then .error .emptySelection
    else .ok (names.filterMap fun nm =>
      (registry.find? fun e => e.1 == nm).map fun e => (nm, e.2.2))

/-- The `get_xy_point` accessor emitted into the generated header: fetches the
coordinate pair at `(pattern, index)` and yields `(XY_CENTER, XY_CENTER)` when
either index is out of range. -/
def get_xy_point (g : XYWaveformGenerator) (patterns : List (List ℤ × List ℤ))
    (pattern index : ℕ) : ℤ × ℤ :=
  if pattern < patterns.length ∧ index < g.array_size then
    ((patterns.getD pattern ([], [])).1.getD index g.center,
     (patterns.getD pattern ([], [])).2.getD index g.center)
  else (g.center, g.center)

theorem pyRound_intCast (n : ℤ) : pyRound (n : ℚ) = n := by
  unfold pyRound
  rw [Int.floor_intCast]
  norm_num

theorem pyRound_bounds (q : ℚ) :
    q - 1/2 ≤ (pyRound q : ℚ) ∧ (pyRound q : ℚ) ≤ q + 1/2 := by
  have h1 : (⌊q⌋ : ℚ) ≤ q := Int.floor_le q
  have h2 : q < ⌊q⌋ + 1 := Int.lt_floor_add_one q
  unfold pyRound
  split_ifs with ha hb hc <;> constructor <;> push_cast <;> linarith

theorem pyRound_nonneg {q : ℚ} (h : 0 ≤ q) : 0 ≤ pyRound q := by
  by_contra hneg
  push_neg at hneg
  have hle : pyRound q ≤ -1 := by omega
  have hle' : (pyRound q : ℚ) ≤ -1 := by exact_mod_cast hle
  have := (pyRound_bounds q).1
  linarith

theorem pyRound_le_of_le {q : ℚ} {M : ℤ} (h : q ≤ (M : ℚ)) : pyRound q ≤ M := by
  by_contra hgt
  push_neg at hgt
  have hge : M + 1 ≤ pyRound q := by omega
  have hge' : (M : ℚ) + 1 ≤ (pyRound q : ℚ) := by exact_mod_cast hge
  have := (pyRound_bounds q).2
  linarith

theorem pyRound_half (f : ℤ) :
    pyRound ((f : ℚ) + 1/2) = if f % 2 = 0 then f else f + 1 := by
  have hfl : ⌊(f : ℚ) + 1/2⌋ = f := by
    rw [Int.floor_int_add]
    norm_num
  unfold pyRound
  rw [hfl]
  norm_num

theorem max_value_nonneg (g : WaveformGenerator) : 0 ≤ g.max_value := by
  unfold WaveformGenerator.max_value
  have h := pow_pos (show (0:ℤ) < 2 by norm_num) g.bits
  omega

theorem normalize_nonneg (g : WaveformGenerator) (q : ℚ) : 0 ≤ g.normalize q :=
  le_max_left _ _

theorem normalize_le (g : WaveformGenerator) (q : ℚ) : g.normalize q ≤ g.max_value :=
  max_le (max_value_nonneg g) (min_le_left _ _)

theorem xy_max_value_nonneg (g : XYWaveformGenerator) : 0 ≤ g.max_value := by
  unfold XYWaveformGenerator.max_value
  have h := pow_pos (show (0:ℤ) < 2 by norm_num) g.bits
  omega

theorem normalize_xy_bounds (g : XYWaveformGenerator) (x y : ℚ) :
    (0 ≤ (g.normalize_xy x y).1 ∧ (g.normalize_xy x y).1 ≤ g.max_value) ∧
    (0 ≤ (g.normalize_xy x y).2 ∧ (g.normalize_xy x y).2 ≤ g.max_value) :=
  ⟨⟨le_max_left _ _, max_le (xy_max_value_nonneg g) (min_le_left _ _)⟩,
   ⟨le_max_left _ _, max_le (xy_max_value_nonneg g) (min_le_left _ _)⟩⟩

theorem mem_map_normalize_bounds (g : WaveformGenerator) {α : Type} (l : List α)
    (f : α → ℤ) (hf : ∀ a, ∃ q, f a = g.normalize q) :
    ∀ v ∈ l.map f, 0 ≤ v ∧ v ≤ g.max_value := by
  intro v hv
  obtain ⟨a, _, rfl⟩ := List.mem_map.1 hv
  obtain ⟨q, hq⟩ := hf a
  rw [hq]
  exact ⟨normalize_nonneg g q, normalize_le g q⟩

theorem mem_xy_map_bounds (g : XYWaveformGenerator) {α : Type} (l : List α)
    (f : α → ℤ × ℤ) (hf : ∀ a, ∃ x y, f a = g.normalize_xy x y) :
    ∀ v, (v ∈ (l.map f).map Prod.fst ∨ v ∈ (l.map f).map Prod.snd) →
      0 ≤ v ∧ v ≤ g.max_value := by
  intro v hv
  rcases hv with hv | hv <;> obtain ⟨p, hp, rfl⟩ := List.mem_map.1 hv <;>
    obtain ⟨a, _, rfl⟩ := List.mem_map.1 hp <;> obtain ⟨x, y, hxy⟩ := hf a <;> rw [hxy]
  · exact ((normalize_xy_bounds g x y).1)
  · exact ((normalize_xy_bounds g x y).2)

theorem optMap_eq_some {α β : Type} (f : α → Option β) (h : α → β) :
    ∀ l : List α, (∀ a ∈ l, f a = some (h a)) → optMap f l = some (l.map h) := by
  intro l
  induction l with
  | nil => intro _; rfl
  | cons a t ih =>
    intro hall
    have ha := hall a (List.mem_cons_self a t)
    have ht := ih fun b hb => hall b (List.mem_cons_of_mem a hb)
    simp [optMap, ha, ht]

theorem ramp_eq_of_lt (g : WaveformGenerator) (h : 1 < g.array_size) :
    g.generate_linear_ramp =
      some ((List.range g.array_size).map fun (i : ℕ) =>
        pyRound ((i : ℚ) * (g.max_value : ℚ) / ((g.array_size : ℚ) - 1))) := by
  unfold WaveformGenerator.generate_linear_ramp
  apply optMap_eq_some
  intro a _
  have h2 : (2 : ℚ) ≤ (g.array_size : ℚ) := by exact_mod_cast h
  have hne : ((g.array_size : ℚ) - 1) ≠ 0 := by intro heq; linarith
  simp only [pydiv, if_neg hne, Option.map_some']

theorem ramp_none_of_one (g : WaveformGenerator) (h : g.array_size = 1) :
    g.generate_linear_ramp = none := by
  unfold WaveformGenerator.generate_linear_ramp
  rw [h, show List.range 1 = [0] from rfl]
  simp [optMap, pydiv]

theorem ramp_bounds (g : WaveformGenerator) :
    ∀ l, g.generate_linear_ramp = some l → ∀ v ∈ l, 0 ≤ v ∧ v ≤ g.max_value := by
  intro l hl v hv
  rcases Nat.lt_or_ge 1 g.array_size with hN | hN
  · rw [ramp_eq_of_lt g hN] at hl
    injection hl with hl
    subst hl
    obtain ⟨i, hi, rfl⟩ := List.mem_map.1 hv
    have hiN : i < g.array_size := List.mem_range.1 hi
    have h2 : (2 : ℚ) ≤ (g.array_size : ℚ) := by exact_mod_cast hN
    have hd : (0 : ℚ) < (g.array_size : ℚ) - 1 := by linarith
    have hM : (0 : ℚ) ≤ (g.max_value : ℚ) := by exact_mod_cast max_value_nonneg g
    have hi1 : (i : ℚ) ≤ (g.array_size : ℚ) - 1 := by
      have : (i : ℚ) + 1 ≤ (g.array_size : ℚ) := by exact_mod_cast hiN
      linarith
    have hq0 : 0 ≤ (i : ℚ) * (g.max_value : ℚ) / ((g.array_size : ℚ) - 1) :=
      div_nonneg (mul_nonneg (by positivity) hM) hd.le
    have hqM : (i : ℚ) * (g.max_value : ℚ) / ((g.array_size : ℚ) - 1) ≤ (g.max_value : ℚ) := by
      rw [div_le_iff₀ hd]
      nlinarith
    exact ⟨pyRound_nonneg hq0, pyRound_le_of_le hqM⟩
  · have h01 : g.array_size = 0 ∨ g.array_size = 1 := by omega
    rcases h01 with h0 | h1
    · have hsome : g.generate_linear_ramp = some [] := by
        unfold WaveformGenerator.generate_linear_ramp
        rw [h0]
        rfl
      rw [hsome] at hl
      injection hl with hl
      subst hl
      simp at hv
    · rw [ramp_none_of_one g h1] at hl
      cases hl

/-- Modelled from the spec (section 4.1): the Quantizer contract
`quantize(v, max_value)`, written exactly as the spec's formula
`round_ties_to_even((v + 1) * max_value / 2)` clamped to `[0, max_value]`,
for comparison against the source's `normalize`/`normalize_xy`. -/
def spec_quantize (v : ℚ) (M : ℤ) : ℤ :=
  max 0 (min M (pyRound ((v + 1) * (M : ℚ) / 2)))

/-- C2: the quantizer computes round-ties-to-even((v+1)*max_value/2) clamped
to [0, max_value] (both `WaveformGenerator.normalize` and both coordinates of
`XYWaveformGenerator.normalize_xy` agree with the spec formula), and for every
max_value M ≥ 1: quantize(-1, M) = 0, quantize(1, M) = M, and
quantize(0, M) = round_ties_to_even(M / 2). -/
theorem c2_quantizer :
    (∀ (g : WaveformGenerator) (v : ℚ), g.normalize v = spec_quantize v g.max_value)
  ∧ (∀ (gx : XYWaveformGenerator) (x y : ℚ),
      gx.normalize_xy x y = (spec_quantize x gx.max_value, spec_quantize y gx.max_value))
  ∧ (∀ M : ℤ, 1 ≤ M →
      spec_quantize (-1) M = 0 ∧ spec_quantize 1 M = M ∧
        spec_quantize 0 M = pyRound ((M : ℚ) / 2)) := by
  refine ⟨fun g v => rfl, fun gx x y => rfl, fun M hM => ?_⟩
  have hM0 : (0 : ℚ) ≤ (M : ℚ) := by exact_mod_cast (by omega : (0:ℤ) ≤ M)
  refine ⟨?_, ?_, ?_⟩
  · have h0 : ((-1 : ℚ) + 1) * (M : ℚ) / 2 = ((0 : ℤ) : ℚ) := by norm_num
    unfold spec_quantize
    rw [h0, pyRound_intCast, min_eq_right (by omega : (0:ℤ) ≤ M), max_self]
  · have h1 : ((1 : ℚ) + 1) * (M : ℚ) / 2 = ((M : ℤ) : ℚ) := by ring
    unfold spec_quantize
    rw [h1, pyRound_intCast, min_self, max_eq_right (by omega : (0:ℤ) ≤ M)]
  · have h2 : ((0 : ℚ) + 1) * (M : ℚ) / 2 = (M : ℚ) / 2 := by ring
    unfold spec_quantize
    rw [h2]
    have hr0 : 0 ≤ pyRound ((M : ℚ) / 2) := pyRound_nonneg (by positivity)
    have hrM : pyRound ((M : ℚ) / 2) ≤ M := pyRound_le_of_le (by linarith)
    rw [min_eq_right hrM, max_eq_right hr0]

/-- C2 witness at M = 255. -/
theorem c2_quantizer_witness :
    spec_quantize (-1) 255 = 0 ∧ spec_quantize 1 255 = 255 ∧
      spec_quantize 0 255 = pyRound ((255 : ℚ) / 2) :=
  c2_quantizer.2.2 255 (by norm_num)

/-- C3 (amended): construction of either generator class succeeds exactly when
bits ≤ 32 (the source enforces no lower bound); on success the derived
max_value is 2^bits − 1, and the storage type is the smallest of
uint8_t/uint16_t/uint32_t whose width is ≥ bits; for bits > 32 construction
fails with the UnsupportedBitDepth ValueError before any buffer is computed. -/
theorem c3_construction (bits array_size : ℕ) :
    ((WaveformGenerator.init bits array_size).isOk = true ↔ bits ≤ 32)
  ∧ ((XYWaveformGenerator.init bits array_size).isOk = true ↔ bits ≤ 32)
  ∧ (∀ g, WaveformGenerator.init bits array_size = .ok g →
      g.max_value = 2 ^ bits - 1 ∧ g.bits = bits ∧ g.array_size = array_size)
  ∧ (∀ g, XYWaveformGenerator.init bits array_size = .ok g →
      g.max_value = 2 ^ bits - 1 ∧ g.bits = bits ∧ g.array_size = array_size)
  ∧ (bits ≤ 8 →
      WaveformGenerator.get_data_type ⟨bits, array_size⟩ = .ok "uint8_t" ∧
      XYWaveformGenerator.get_data_type ⟨bits, array_size⟩ = .ok "uint8_t")
  ∧ (9 ≤ bits → bits ≤ 16 →
      WaveformGenerator.get_data_type ⟨bits, array_size⟩ = .ok "uint16_t" ∧
      XYWaveformGenerator.get_data_type ⟨bits, array_size⟩ = .ok "uint16_t")
  ∧ (17 ≤ bits → bits ≤ 32 →
      WaveformGenerator.get_data_type ⟨bits, array_size⟩ = .ok "uint32_t" ∧
      XYWaveformGenerator.get_data_type ⟨bits, array_size⟩ = .ok "uint32_t")
  ∧ (32 < bits →
      WaveformGenerator.init bits array_size = .error "Nombre de bits non supporte" ∧
      XYWaveformGenerator.init bits array_size = .error "Nombre de bits non supporte") := by
  refine ⟨?_, ?_, ?_, ?_, ?_, ?_, ?_, ?_⟩
  · simp only [WaveformGenerator.init, WaveformGenerator.get_data_type]
    split_ifs with h1 h2 h3 <;> simp [Except.map, Except.isOk, Except.toBool] <;> omega
  · simp only [XYWaveformGenerator.init, XYWaveformGenerator.get_data_type]
    split_ifs with h1 h2 h3 <;> simp [Except.map, Except.isOk, Except.toBool] <;> omega
  · intro g hg
    simp only [WaveformGenerator.init, WaveformGenerator.get_data_type] at hg
    split_ifs at hg <;> simp [Except.map] at hg <;>
      simp [← hg, WaveformGenerator.max_value]
  · intro g hg
    simp only [XYWaveformGenerator.init, XYWaveformGenerator.get_data_type] at hg
    split_ifs at hg <;> simp [Except.map] at hg <;>
      simp [← hg, XYWaveformGenerator.max_value]
  · intro h
    constructor <;>
      simp [WaveformGenerator.get_data_type, XYWaveformGenerator.get_data_type, h]
  · intro h9 h16
    constructor
    · simp only [WaveformGenerator.get_data_type]
      rw [if_neg (by omega), if_pos h16]
    · simp only [XYWaveformGenerator.get_data_type]
      rw [if_neg (by omega), if_pos h16]
  · intro h17 h32
    constructor
    · simp only [WaveformGenerator.get_data_type]
      rw [if_neg (by omega), if_neg (by omega), if_pos h32]
    · simp only [XYWaveformGenerator.get_data_type]
      rw [if_neg (by omega), if_neg (by omega), if_pos h32]
  · intro h
    constructor
    · simp only [WaveformGenerator.init, WaveformGenerator.get_data_type]
      rw [if_neg (by omega), if_neg (by omega), if_neg (by omega)]
      rfl
    · simp only [XYWaveformGenerator.init, XYWaveformGenerator.get_data_type]
      rw [if_neg (by omega), if_neg (by omega), if_neg (by omega)]
      rfl

/-- C3 witness at bits = 8. -/
theorem c3_construction_witness :
    WaveformGenerator.get_data_type ⟨8, 256⟩ = .ok "uint8_t" ∧
      XYWaveformGenerator.get_data_type ⟨8, 256⟩ = .ok "uint8_t" :=
  (c3_construction 8 256).2.2.2.2.1 (by norm_num)

/-- C3 counterexample: the claim says construction fails for every bits outside
[1, 32], but at bits = 0 (outside that range) construction of both generator
classes succeeds. -/
theorem c3_counterexample :
    (WaveformGenerator.init 0 256).isOk = true ∧
      (XYWaveformGenerator.init 0 256).isOk = true :=
  ⟨rfl, rfl⟩

/-- C5: for array_size > 1 the linear ramp is defined, has the requested
length, starts exactly at 0, ends exactly at max_value, and its element i is
round(i * max_value / (array_size - 1)); concretely bits = 8, size = 4 yields
[0, 85, 170, 255]. -/
theorem c5_linear_ramp :
    (∀ g : WaveformGenerator, 1 < g.array_size →
      ∃ l, g.generate_linear_ramp = some l ∧ l.length = g.array_size ∧
        l[0]? = some 0 ∧ l[g.array_size - 1]? = some g.max_value ∧
        ∀ i, i < g.array_size →
          l[i]? = some (pyRound ((i : ℚ) * (g.max_value : ℚ) / ((g.array_size : ℚ) - 1))))
  ∧ WaveformGenerator.generate_linear_ramp ⟨8, 4⟩ = some [0, 85, 170, 255] := by
  constructor
  · intro g hN
    refine ⟨_, ramp_eq_of_lt g hN, ?_, ?_, ?_, ?_⟩
    · rw [List.length_map, List.length_range]
    · rw [List.getElem?_map, List.getElem?_range (by omega), Option.map_some']
      have h0 : ((0 : ℕ) : ℚ) * (g.max_value : ℚ) / ((g.array_size : ℚ) - 1)
          = ((0 : ℤ) : ℚ) := by push_cast; ring
      rw [h0, pyRound_intCast]
    · rw [List.getElem?_map, List.getElem?_range (by omega), Option.map_some']
      have h2 : (2 : ℚ) ≤ (g.array_size : ℚ) := by exact_mod_cast hN
      have hne : ((g.array_size : ℚ) - 1) ≠ 0 := by intro heq; linarith
      have hc : ((g.array_size - 1 : ℕ) : ℚ) = (g.array_size : ℚ) - 1 := by
        push_cast [Nat.cast_sub (by omega : 1 ≤ g.array_size)]
        ring
      rw [hc, mul_comm, mul_div_assoc, div_self hne, mul_one, pyRound_intCast]
    · intro i hi
      rw [List.getElem?_map, List.getElem?_range hi, Option.map_some']
  · decide

/-- C5 witness at bits = 8, size = 4. -/
theorem c5_linear_ramp_witness :
    ∃ l, WaveformGenerator.generate_linear_ramp ⟨8, 4⟩ = some l ∧
      l.length = WaveformGenerator.array_size ⟨8, 4⟩ ∧
      l[0]? = some 0 ∧
      l[WaveformGenerator.array_size ⟨8, 4⟩ - 1]? = some (WaveformGenerator.max_value ⟨8, 4⟩) ∧
      ∀ i : ℕ, i < WaveformGenerator.array_size ⟨8, 4⟩ →
        l[i]? = some (pyRound ((i : ℚ) * ((WaveformGenerator.max_value ⟨8, 4⟩ : ℤ) : ℚ) /
          ((WaveformGenerator.array_size ⟨8, 4⟩ : ℚ) - 1))) :=
  c5_linear_ramp.1 ⟨8, 4⟩ (by norm_num)

/-- C9: at array size 1 the linear ramp divides by zero and raises instead of
returning a buffer; for every array size greater than 1 it succeeds. -/
theorem c9_ramp_division_by_zero :
    (∀ bits : ℕ, WaveformGenerator.generate_linear_ramp ⟨bits, 1⟩ = none)
  ∧ (∀ g : WaveformGenerator, 1 < g.array_size →
      (g.generate_linear_ramp).isSome = true) := by
  constructor
  · intro bits
    exact ramp_none_of_one ⟨bits, 1⟩ rfl
  · intro g h
    rw [ramp_eq_of_lt g h]
    rfl

/-- C9 witness: size 1 fails at 8 bits, size 4 succeeds. -/
theorem c9_ramp_division_by_zero_witness :
    WaveformGenerator.generate_linear_ramp ⟨8, 1⟩ = none ∧
      (WaveformGenerator.generate_linear_ramp ⟨8, 4⟩).isSome = true :=
  ⟨c9_ramp_division_by_zero.1 8, c9_ramp_division_by_zero.2 ⟨8, 4⟩ (by norm_num)⟩

/-- A concrete math-library interpretation with `cos 0 = 1` and `sin 0 = 0`,
used to instantiate universally quantified statements. -/
def mathWitness : PyMath :=
  ⟨0, fun _ => 0, fun _ => 1, fun _ => 0, fun _ => 0, fun _ => 0, fun _ => 0⟩

/-- A concrete (trivial) pseudo-random generator over the unit state. -/
def randWitness : PyRandom Unit :=
  ⟨fun _ => (), fun _ => (0, ())⟩

/-- C6: generation is deterministic. The catalog produced by `main` does not
depend on the incoming global `random` state (its only stateful input),
because `generate_noise` re-seeds with the fixed seed 12345 on each
invocation; in particular two noise invocations in a row, or from any two
prior states, produce element-for-element identical buffers. -/
theorem c6_determinism :
    ∀ (S : Type) (r : PyRandom S) (g : WaveformGenerator) (m : PyMath)
      (amplitude frequency : ℚ) (s₁ s₂ : S),
      available_waveforms g m r s₁ amplitude frequency
        = available_waveforms g m r s₂ amplitude frequency
      ∧ (g.generate_noise r amplitude 12345 s₁).1 = (g.generate_noise r amplitude 12345 s₂).1
      ∧ (g.generate_noise r amplitude 12345
            ((g.generate_noise r amplitude 12345 s₁).2)).1
          = (g.generate_noise r amplitude 12345 s₁).1 := by
  intro S r g m amplitude frequency s₁ s₂
  exact ⟨rfl, rfl, rfl⟩

/-- C7: for each sample of the guarded generators (heart, butterfly), a failed
per-sample evaluation (exception or non-finite result, `evalSample i = none`)
is replaced by 0.0 and generation continues (full-length buffer, no error);
for butterfly a successful pre-quantization value is additionally clamped to
[-2, 2] before quantization. -/
theorem c7_numeric_fallback :
    ∀ (g : WaveformGenerator) (ev : ℕ → Option ℚ),
      ((g.generate_heart ev).length = g.array_size
        ∧ (∀ i, i < g.array_size → ev i = none →
            (g.generate_heart ev)[i]? = some (g.normalize 0))
        ∧ ∀ i v, i < g.array_size → ev i = some v →
            (g.generate_heart ev)[i]? = some (g.normalize v))
      ∧ ((g.generate_butterfly ev).length = g.array_size
        ∧ (∀ i, i < g.array_size → ev i = none →
            (g.generate_butterfly ev)[i]? = some (g.normalize 0))
        ∧ ∀ i v, i < g.array_size → ev i = some v →
            (g.generate_butterfly ev)[i]? = some (g.normalize (max (-2) (min 2 v)))) := by
  intro g ev
  refine ⟨⟨?_, ?_, ?_⟩, ⟨?_, ?_, ?_⟩⟩
  · simp [WaveformGenerator.generate_heart]
  · intro i hi hnone
    simp [WaveformGenerator.generate_heart, List.getElem?_map, List.getElem?_range hi, hnone]
  · intro i v hi hsome
    simp [WaveformGenerator.generate_heart, List.getElem?_map, List.getElem?_range hi, hsome]
  · simp [WaveformGenerator.generate_butterfly]
  · intro i hi hnone
    simp [WaveformGenerator.generate_butterfly, List.getElem?_map, List.getElem?_range hi, hnone]
  · intro i v hi hsome
    simp [WaveformGenerator.generate_butterfly, List.getElem?_map, List.getElem?_range hi, hsome]

/-- C7 witness at bits = 8, size = 2, with an always-failing evaluation. -/
theorem c7_numeric_fallback_witness :
    (WaveformGenerator.generate_heart ⟨8, 2⟩ (fun _ => none)).length =
        WaveformGenerator.array_size ⟨8, 2⟩ ∧
      (WaveformGenerator.generate_heart ⟨8, 2⟩ (fun _ => none))[0]? =
        some (WaveformGenerator.normalize ⟨8, 2⟩ 0) ∧
      (WaveformGenerator.generate_butterfly ⟨8, 2⟩ (fun _ => none))[1]? =
        some (WaveformGenerator.normalize ⟨8, 2⟩ 0) :=
  ⟨(c7_numeric_fallback ⟨8, 2⟩ (fun _ => none)).1.1,
   (c7_numeric_fallback ⟨8, 2⟩ (fun _ => none)).1.2.1 0 (by norm_num) rfl,
   (c7_numeric_fallback ⟨8, 2⟩ (fun _ => none)).2.2.1 1 (by norm_num) rfl⟩

/-- C8: with 8 bits and size 4, the circle pattern with radius 0.8 and phase 0
has element 0 equal to (quantize(0.8, 255), quantize(0, 255)) = (230, 128),
because t = 0 there, so x = 0.8 * cos 0 = 0.8 and y = 0.8 * sin 0 = 0. -/
theorem c8_circle_first_element :
    ∀ m : PyMath, m.cos 0 = 1 → m.sin 0 = 0 →
      ((XYWaveformGenerator.generate_circle ⟨8, 4⟩ m (4/5) 0).1[0]? = some 230
        ∧ (XYWaveformGenerator.generate_circle ⟨8, 4⟩ m (4/5) 0).2[0]? = some 128)
      ∧ XYWaveformGenerator.normalize_xy ⟨8, 4⟩ (4/5) 0 = (230, 128) := by
  intro m hc hs
  have hxy : XYWaveformGenerator.normalize_xy ⟨8, 4⟩ (4/5) 0 = (230, 128) := by decide
  have ht : (2 * m.pi * ((0 : ℕ) : ℚ) / ((XYWaveformGenerator.array_size ⟨8, 4⟩ : ℕ) : ℚ) + 0) = 0 := by
    push_cast
    ring
  refine ⟨⟨?_, ?_⟩, hxy⟩
  · unfold XYWaveformGenerator.generate_circle
    simp only [List.getElem?_map, List.getElem?_range (show 0 < XYWaveformGenerator.array_size ⟨8, 4⟩ by norm_num [XYWaveformGenerator.array_size]), Option.map_some']
    rw [ht, hc, hs]
    norm_num [hxy]
  · unfold XYWaveformGenerator.generate_circle
    simp only [List.getElem?_map, List.getElem?_range (show 0 < XYWaveformGenerator.array_size ⟨8, 4⟩ by norm_num [XYWaveformGenerator.array_size]), Option.map_some']
    rw [ht, hc, hs]
    norm_num [hxy]

/-- C8 witness with a concrete math interpretation. -/
theorem c8_circle_first_element_witness :
    ((XYWaveformGenerator.generate_circle ⟨8, 4⟩ mathWitness (4/5) 0).1[0]? = some 230
      ∧ (XYWaveformGenerator.generate_circle ⟨8, 4⟩ mathWitness (4/5) 0).2[0]? = some 128)
    ∧ XYWaveformGenerator.normalize_xy ⟨8, 4⟩ (4/5) 0 = (230, 128) :=
  c8_circle_first_element mathWitness rfl rfl

theorem fdiv_two_eq_floor (a : ℤ) : Int.fdiv a 2 = ⌊(a : ℚ) / 2⌋ := by
  rw [Int.fdiv_eq_ediv a (by norm_num)]
  have h1 : 2 * (a / 2) ≤ a := by omega
  have h2 : a < 2 * (a / 2) + 2 := by omega
  symm
  rw [Int.floor_eq_iff]
  constructor
  · rw [le_div_iff₀ (by norm_num : (0:ℚ) < 2)]
    have : ((2 * (a / 2) : ℤ) : ℚ) ≤ ((a : ℤ) : ℚ) := by exact_mod_cast h1
    push_cast at this ⊢
    linarith
  · rw [div_lt_iff₀ (by norm_num : (0:ℚ) < 2)]
    have : ((a : ℤ) : ℚ) < ((2 * (a / 2) + 2 : ℤ) : ℚ) := by exact_mod_cast h2
    push_cast at this ⊢
    linarith

/-- C10 (amended): the XY_CENTER constant (used in the emitted header and as
the out-of-range default of the bounds-checked `get_xy_point` accessor) is
`max_value // 2 = floor(max_value / 2)`; `max_value = 2^bits − 1` is odd for
every bits ≥ 1; for every bits ≥ 2 the center is exactly one less than
quantize(0, max_value) (e.g. 127 versus 128 at 8 bits), but at bits = 1 the
two values are equal (both 0), so "one less" does not hold for all bits ≥ 1. -/
theorem c10_xy_center (g : XYWaveformGenerator) :
    g.center = ⌊(g.max_value : ℚ) / 2⌋
    ∧ (1 ≤ g.bits → g.max_value % 2 = 1)
    ∧ (2 ≤ g.bits → g.center = (g.normalize_xy 0 0).1 - 1)
    ∧ (g.bits = 1 → g.center = (g.normalize_xy 0 0).1)
    ∧ (∀ (pats : List (List ℤ × List ℤ)) (p i : ℕ),
        ¬(p < pats.length ∧ i < g.array_size) →
          get_xy_point g pats p i = (g.center, g.center)) := by
  refine ⟨fdiv_two_eq_floor g.max_value, ?_, ?_, ?_, ?_⟩
  · intro hb
    have hk1 : (2:ℤ) ^ g.bits = 2 * 2 ^ (g.bits - 1) := by
      conv_lhs => rw [show g.bits = (g.bits - 1) + 1 by omega]
      rw [pow_succ']
    unfold XYWaveformGenerator.max_value
    omega
  · intro hb
    have hk1 : (2:ℤ) ^ g.bits = 2 * 2 ^ (g.bits - 1) := by
      conv_lhs => rw [show g.bits = (g.bits - 1) + 1 by omega]
      rw [pow_succ']
    have hk2 : (2:ℤ) ^ (g.bits - 1) = 2 * 2 ^ (g.bits - 2) := by
      conv_lhs => rw [show g.bits - 1 = (g.bits - 2) + 1 by omega]
      rw [pow_succ']
    have hjpos : 0 < (2:ℤ) ^ (g.bits - 2) := pow_pos (by norm_num) _
    set k := (2:ℤ) ^ (g.bits - 1) with hk
    have hmax : g.max_value = 2 * k - 1 := by
      unfold XYWaveformGenerator.max_value
      omega
    have harg : ((0:ℚ) + 1) * (g.max_value : ℚ) / 2 = ((k - 1 : ℤ) : ℚ) + 1/2 := by
      rw [hmax]
      push_cast
      ring
    have hround : pyRound (((k - 1 : ℤ) : ℚ) + 1/2) = k := by
      rw [pyRound_half, if_neg (by omega)]
      omega
    have hfst : (g.normalize_xy 0 0).1 = k := by
      show max 0 (min g.max_value (pyRound ((0 + 1) * (g.max_value : ℚ) / 2))) = k
      rw [harg, hround, min_eq_right (by omega), max_eq_right (by omega)]
    have hcenter : g.center = k - 1 := by
      show Int.fdiv g.max_value 2 = k - 1
      rw [Int.fdiv_eq_ediv _ (by norm_num), hmax]
      omega
    rw [hfst, hcenter]
  · intro hb
    have hmax : g.max_value = 1 := by
      unfold XYWaveformGenerator.max_value
      rw [hb]
      norm_num
    have harg : ((0:ℚ) + 1) * (g.max_value : ℚ) / 2 = ((0 : ℤ) : ℚ) + 1/2 := by
      rw [hmax]
      push_cast
      ring
    have hfst : (g.normalize_xy 0 0).1 = 0 := by
      show max 0 (min g.max_value (pyRound ((0 + 1) * (g.max_value : ℚ) / 2))) = 0
      rw [harg, pyRound_half, if_pos (by norm_num), hmax]
      norm_num
    have hcenter : g.center = 0 := by
      show Int.fdiv g.max_value 2 = 0
      rw [Int.fdiv_eq_ediv _ (by norm_num), hmax]
      decide
    rw [hfst, hcenter]
  · intro pats p i h
    unfold get_xy_point
    rw [if_neg h]

/-- C10 witness at bits = 8: center 127 is one less than quantize(0, 255) = 128. -/
theorem c10_xy_center_witness :
    XYWaveformGenerator.center ⟨8, 256⟩ =
      (XYWaveformGenerator.normalize_xy ⟨8, 256⟩ 0 0).1 - 1 :=
  (c10_xy_center ⟨8, 256⟩).2.2.1 (by norm_num)

/-- C10 counterexample: at bits = 1 the center equals quantize(0, max_value)
(both are 0) instead of being one less, refuting "for every bits ≥ 1". -/
theorem c10_xy_center_counterexample :
    XYWaveformGenerator.center ⟨1, 256⟩ = (XYWaveformGenerator.normalize_xy ⟨1, 256⟩ 0 0).1 ∧
      ¬ XYWaveformGenerator.center ⟨1, 256⟩ =
          (XYWaveformGenerator.normalize_xy ⟨1, 256⟩ 0 0).1 - 1 := by
  constructor <;> decide

theorem mem_invalid_waves (waves_arg : String) (keys : List String) (w : String) :
    w ∈ invalid_waves waves_arg keys ↔ w ∈ parse_waves waves_arg ∧ w ∉ keys := by
  unfold invalid_waves
  rw [List.mem_dedup, List.mem_filter]
  simp

/-- C4: in both command-line tools, an explicit comma-separated selection list
containing at least one identifier absent from the registry makes the whole
run fail before any generation: the result is the UnknownIdentifier error
(so no buffer collection is produced and nothing is written), and the error
carries exactly the set of invalid identifiers. -/
theorem c4_selection_atomicity :
    ∀ (waves_arg : String)
      (registry : List (String × String × Option (List ℤ)))
      (xregistry : List (String × String × (List ℤ × List ℤ))),
      waves_arg ≠ "all" →
      ((∃ w ∈ parse_waves waves_arg, w ∉ registry.map Prod.fst) →
        main_run waves_arg registry =
          .error (.unknownWaveforms (invalid_waves waves_arg (registry.map Prod.fst))))
      ∧ ((∃ w ∈ parse_waves waves_arg, w ∉ xregistry.map Prod.fst) →
        xy_main_run waves_arg xregistry =
          .error (.unknownWaveforms (invalid_waves waves_arg (xregistry.map Prod.fst))))
      ∧ (∀ keys w, w ∈ invalid_waves waves_arg keys ↔
          w ∈ parse_waves waves_arg ∧ w ∉ keys) := by
  intro waves_arg registry xregistry hall
  refine ⟨?_, ?_, fun keys w => mem_invalid_waves waves_arg keys w⟩
  · rintro ⟨w, hw, hnot⟩
    have hmem : w ∈ invalid_waves waves_arg (registry.map Prod.fst) :=
      (mem_invalid_waves _ _ _).2 ⟨hw, hnot⟩
    have hne : invalid_waves waves_arg (registry.map Prod.fst) ≠ [] :=
      List.ne_nil_of_mem hmem
    simp only [main_run]
    rw [if_neg hall, if_pos hne]
  · rintro ⟨w, hw, hnot⟩
    have hmem : w ∈ invalid_waves waves_arg (xregistry.map Prod.fst) :=
      (mem_invalid_waves _ _ _).2 ⟨hw, hnot⟩
    have hne : invalid_waves waves_arg (xregistry.map Prod.fst) ≠ [] :=
      List.ne_nil_of_mem hmem
    simp only [xy_main_run]
    rw [if_neg hall, if_pos hne]

/-- C4 witness: the selection "sine,bogus" against the real registries. -/
theorem c4_selection_atomicity_witness :
    main_run "sine,bogus" (available_waveforms ⟨8, 4⟩ mathWitness randWitness () 1 1) =
      .error (.unknownWaveforms (invalid_waves "sine,bogus"
        ((available_waveforms ⟨8, 4⟩ mathWitness randWitness () 1 1).map Prod.fst))) ∧
    xy_main_run "sine,bogus" (available_patterns ⟨8, 4⟩ mathWitness) =
      .error (.unknownWaveforms (invalid_waves "sine,bogus"
        ((available_patterns ⟨8, 4⟩ mathWitness).map Prod.fst))) :=
  ⟨(c4_selection_atomicity "sine,bogus"
      (available_waveforms ⟨8, 4⟩ mathWitness randWitness () 1 1)
      (available_patterns ⟨8, 4⟩ mathWitness) (by decide)).1
      ⟨"bogus", by decide, by decide⟩,
   (c4_selection_atomicity "sine,bogus"
      (available_waveforms ⟨8, 4⟩ mathWitness randWitness () 1 1)
      (available_patterns ⟨8, 4⟩ mathWitness) (by decide)).2.1
      ⟨"bogus", by decide, by decide⟩⟩

/-- C1: every element of every buffer produced through the registries (single
channel or XY, any identifier, any bit depth and array size, any
amplitude/frequency parameters, any math-library interpretation) lies in
[0, max_value]. -/
theorem c1_buffer_range :
    ∀ (S : Type) (g : WaveformGenerator) (m : PyMath) (r : PyRandom S) (s : S)
      (amplitude frequency : ℚ),
      (∀ e ∈ available_waveforms g m r s amplitude frequency,
        ∀ l, e.2.2 = some l → ∀ v ∈ l, 0 ≤ v ∧ v ≤ g.max_value)
      ∧ ∀ (gx : XYWaveformGenerator) (mx : PyMath),
          ∀ e ∈ available_patterns gx mx,
            ∀ v, (v ∈ e.2.2.1 ∨ v ∈ e.2.2.2) → 0 ≤ v ∧ v ≤ gx.max_value := by
  intro S g m r s amplitude frequency
  constructor
  · intro e he l hl v hv
    simp only [available_waveforms, List.mem_cons, List.not_mem_nil, or_false] at he
    rcases he with rfl|rfl|rfl|rfl|rfl|rfl|rfl|rfl|rfl|rfl|rfl|rfl|rfl|rfl|rfl|rfl <;>
      first
        | exact ramp_bounds g l hl v hv
        | (obtain rfl := Option.some.inj hl
           exact mem_map_normalize_bounds g _ _ (fun i => ⟨_, rfl⟩) v hv)
  · intro gx mx e he v hv
    simp only [available_patterns, List.mem_cons, List.not_mem_nil, or_false] at he
    rcases he with rfl|rfl|rfl|rfl|rfl|rfl|rfl|rfl|rfl|rfl|rfl|rfl|rfl|rfl|rfl|rfl|rfl|rfl <;>
      exact mem_xy_map_bounds gx _ _ (fun i => ⟨_, _, rfl⟩) v hv

/-- C1 witness: the ramp buffer at bits = 8, size = 4 contains 85,
and 0 ≤ 85 ≤ max_value. -/
theorem c1_buffer_range_witness :
    (0 : ℤ) ≤ 85 ∧ (85 : ℤ) ≤ WaveformGenerator.max_value ⟨8, 4⟩ :=
  (c1_buffer_range Unit ⟨8, 4⟩ mathWitness randWitness () 1 1).1
    ("ramp", "Linear ramp", WaveformGenerator.generate_linear_ramp ⟨8, 4⟩)
    (List.Mem.tail _ (List.Mem.tail _ (List.Mem.tail _ (List.Mem.tail _ (List.Mem.head _)))))
    [0, 85, 170, 255] (by decide) 85 (by decide)




